import Mathlib

/-!
Verification of the quantitative portfolio engine of the robo-advisor
repository (`backend/app/services/portfolio_manager.py`), as a shallow
embedding in Lean 4.

Modelling conventions:
* Python dicts keyed by symbol become association lists `List (String × _)`
  (Python dicts preserve insertion order, as the lists do; `d.get(k, 0)`
  becomes `(l.lookup k).getD 0`).
* Python floats become `ℚ` wherever the code only uses field operations;
  the one place the code takes square roots (`analyze_scenario` and the
  volatility metric) is embedded over `ℝ` with `Real.sqrt`.
* `scipy.optimize.minimize` is an external collaborator: it is embedded as
  a function parameter producing a `SolverResult` (final iterate `x`, the
  convergence flag `success`, and the objective value `fval`, written
  `result.fun` in the source).  The surrounding code is translated exactly;
  nothing about the solver's numerics is assumed beyond what the code reads
  from the result object.
-/

namespace RoboAdvisor

/-! ## Rebalancer (`rebalance_portfolio`, portfolio_manager.py lines 155-169) -/

/-- Shallow embedding of `PortfolioManager.rebalance_portfolio`.  The source
iterates over the keys of `target_allocation` (in insertion order), reads
`current_allocation.get(symbol, 0)`, computes `diff = target - current`, and
records the trade only when `abs(diff) > threshold`. -/
def rebalance_portfolio (current_allocation target_allocation : List (String × ℚ))
    (threshold : ℚ) : List (String × ℚ) :=
  target_allocation.filterMap fun st =>
    let current : ℚ := ((current_allocation.lookup st.1).getD 0)
    let diff : ℚ := st.2 - current
    if threshold < |diff| then some (st.1, diff) else none

/-! ## TaxLossHarvester (`calculate_tax_loss_harvest`, lines 171-191) -/

/-- One transaction lot, the dict `{"symbol": …, "price": …, "shares": …}`
consumed by `calculate_tax_loss_harvest`. -/
structure Lot where
  symbol : String
  price : ℚ
  shares : ℚ
deriving DecidableEq, Repr

/-- One recommended harvest, the dict
`{"symbol": …, "shares": …, "potential_loss": …}` built at lines 186-190. -/
structure HarvestOpportunity where
  symbol : String
  shares : ℚ
  potential_loss : ℚ
deriving DecidableEq, Repr

/-- Shallow embedding of `PortfolioManager.calculate_tax_loss_harvest`.
For each lot the source evaluates
`if current_price and current_price < purchase_price:` — Python truthiness,
so the branch is taken only when the lookup produced a value that is both
nonzero (`0` and `0.0` are falsy, as is the `None` of a missing symbol) and
strictly below the purchase price — and then keeps the lot only when
`abs(loss) > 1000` for `loss = (current - purchase) * shares`. -/
def calculate_tax_loss_harvest (transactions : List Lot)
    (current_prices : List (String × ℚ)) : List HarvestOpportunity :=
  transactions.filterMap fun t =>
    match current_prices.lookup t.symbol with
    | none => none
    | some current_price =>
      if current_price ≠ 0 ∧ current_price < t.price then
        let loss : ℚ := (current_price - t.price) * t.shares
        if 1000 < |loss| then
          some ⟨t.symbol, t.shares, loss⟩
        else none
      else none

/-- The emission condition of `calculate_tax_loss_harvest`, isolated so the
membership theorem can name it: the lot's symbol resolves to a nonzero
current price strictly below the purchase price, and the loss magnitude
strictly exceeds the fixed $1,000 threshold. -/
def harvestable (current_prices : List (String × ℚ)) (t : Lot) : Bool :=
  match current_prices.lookup t.symbol with
  | none => false
  | some current_price =>
    decide (current_price ≠ 0 ∧ current_price < t.price ∧
      1000 < |(current_price - t.price) * t.shares|)

/-- The opportunity built from a lot that passes `harvestable`. -/
def harvestOf (current_prices : List (String × ℚ)) (t : Lot) : HarvestOpportunity :=
  ⟨t.symbol, t.shares, (((current_prices.lookup t.symbol).getD 0) - t.price) * t.shares⟩

theorem calculate_tax_loss_harvest_eq_filter (transactions : List Lot)
    (current_prices : List (String × ℚ)) :
    calculate_tax_loss_harvest transactions current_prices =
      (transactions.filter (harvestable current_prices)).map (harvestOf current_prices) := by
  induction transactions with
  | nil => rfl
  | cons t rest ih =>
    simp only [calculate_tax_loss_harvest, List.filterMap_cons, List.filter_cons] at *
    cases hl : current_prices.lookup t.symbol with
    | none =>
      simpa [harvestable, hl] using ih
    | some p =>
      by_cases h1 : p ≠ 0 ∧ p < t.price
      · by_cases h2 : (1000 : ℚ) < |(p - t.price) * t.shares|
        · simpa [harvestable, harvestOf, hl, h1, h2, h1.1, h1.2] using ih
        · simpa [harvestable, harvestOf, hl, h1, h2] using ih
      · have : ¬ (p ≠ 0 ∧ p < t.price ∧ 1000 < |(p - t.price) * t.shares|) := by
          intro h; exact h1 ⟨h.1, h.2.1⟩
        simpa [harvestable, harvestOf, hl, h1, this] using ih

/-- C2, amended: `rebalance_portfolio` returns exactly the symbols present in
the *target* allocation whose delta `target - current.get(symbol, 0)` has
magnitude strictly above the threshold, each mapped to that delta; a symbol
held in `current` but absent from `target` is never emitted (the loop ranges
over the target's keys only), and every omitted target symbol has
`|delta| ≤ threshold`. -/
theorem rebalance_portfolio_mem_iff (current_allocation target_allocation : List (String × ℚ))
    (threshold : ℚ) (s : String) (d : ℚ) :
    (s, d) ∈ rebalance_portfolio current_allocation target_allocation threshold ↔
      ∃ t, (s, t) ∈ target_allocation ∧
        d = t - ((current_allocation.lookup s).getD 0) ∧ threshold < |d| := by
  simp only [rebalance_portfolio, List.mem_filterMap]
  constructor
  · rintro ⟨⟨a, b⟩, hab, hf⟩
    dsimp only at hf
    split at hf
    · rename_i hlt
      rw [Option.some_inj, Prod.mk.injEq] at hf
      obtain ⟨rfl, rfl⟩ := hf
      exact ⟨b, hab, rfl, hlt⟩
    · exact absurd hf (by simp)
  · rintro ⟨t, ht, hd, hthr⟩
    refine ⟨(s, t), ht, ?_⟩
    dsimp only
    rw [← hd, if_pos hthr]

/-- C2, counterexample to the claim as stated: with
`current = {"VTI": 1}`, `target = {}` and threshold `0.05`, the symbol
`"VTI"` has delta `0 - 1 = -1` of magnitude above the threshold (the claim
requires it to be emitted as a sell), yet `rebalance_portfolio` returns the
empty trade list, because the source iterates only over the target's keys. -/
theorem rebalance_portfolio_drops_current_only_symbol :
    rebalance_portfolio [("VTI", 1)] ([] : List (String × ℚ)) (1/20) = [] ∧
      (1/20 : ℚ) < |(0 : ℚ) - 1| := by
  exact ⟨rfl, by norm_num⟩

/-- C5: evaluation of `calculate_tax_loss_harvest` at the exact input of the
repository's own unit test `test_calculate_tax_loss_harvest` (lots
VTI @100 ×10 and BND @50 ×20, current prices VTI 90, BND 45).  Each lot's
loss is `-100`, and `abs(-100) > 1000` is false, so the code returns no
opportunities — while the test (and the claim) expect both lots back. -/
theorem calculate_tax_loss_harvest_test_input :
    calculate_tax_loss_harvest
        [⟨"VTI", 100, 10⟩, ⟨"BND", 50, 20⟩]
        [("VTI", 90), ("BND", 45)] = [] ∧
      |((90 : ℚ) - 100) * 10| ≤ 1000 ∧ |((45 : ℚ) - 50) * 20| ≤ 1000 := by
  refine ⟨?_, by norm_num, by norm_num⟩
  norm_num [calculate_tax_loss_harvest, List.filterMap, List.lookup,
    show ("BND" == "VTI") = false from rfl, show ("VTI" == "VTI") = true from rfl,
    show ("BND" == "BND") = true from rfl]

/-- C7, amended: `calculate_tax_loss_harvest` emits an opportunity for a lot
iff the lot's symbol resolves to a known **nonzero** current price strictly
below its purchase price with `|(current - purchase) * shares| > 1000`
(`harvestable`); the opportunity is `harvestOf` of the lot; lots whose
symbol has no current price — or, by Python truthiness, a price of `0` —
are skipped without error; and the output is the `harvestable` sublist of
the input in its original order, so input ordering is preserved. -/
theorem calculate_tax_loss_harvest_correct (transactions : List Lot)
    (current_prices : List (String × ℚ)) :
    (∀ o, o ∈ calculate_tax_loss_harvest transactions current_prices ↔
        ∃ t ∈ transactions, harvestable current_prices t = true ∧
          o = harvestOf current_prices t) ∧
      calculate_tax_loss_harvest transactions current_prices =
        (transactions.filter (harvestable current_prices)).map (harvestOf current_prices) := by
  refine ⟨?_, calculate_tax_loss_harvest_eq_filter transactions current_prices⟩
  intro o
  rw [calculate_tax_loss_harvest_eq_filter]
  simp only [List.mem_map, List.mem_filter]
  constructor
  · rintro ⟨t, ⟨ht, hh⟩, rfl⟩
    exact ⟨t, ht, hh, rfl⟩
  · rintro ⟨t, ht, hh, rfl⟩
    exact ⟨t, ⟨ht, hh⟩, rfl⟩

/-- C7, counterexample to the claim as stated: the lot VTI @100 ×20 with the
*known* current price `0` (present in the price map) is strictly below the
purchase price and its loss magnitude `2000` exceeds the threshold, so the
claim requires an opportunity — but `current_prices.get` returning `0.0` is
falsy in Python (`if current_price and …`), so the code emits nothing. -/
theorem calculate_tax_loss_harvest_skips_zero_price :
    List.lookup "VTI" [("VTI", (0 : ℚ))] = some 0 ∧ (0 : ℚ) < 100 ∧
      (1000 : ℚ) < |((0 : ℚ) - 100) * 20| ∧
      calculate_tax_loss_harvest [⟨"VTI", 100, 20⟩] [("VTI", 0)] = [] := by
  refine ⟨rfl, by norm_num, by norm_num, ?_⟩
  norm_num [calculate_tax_loss_harvest, List.filterMap, List.lookup,
    show ("VTI" == "VTI") = true from rfl]

/-! ## Optimizer (`optimize_portfolio`, lines 51-107) -/

/-- The six asset-class ETFs, `list(self.asset_classes.values())` in the
construction order of lines 11-18. -/
def asset_symbols : List String := ["VTI", "VXUS", "BND", "BNDX", "VNQ", "GSG"]

/-- The result object of `scipy.optimize.minimize`, as far as the source
reads it: the final iterate `result.x`, the convergence flag
`result.success`, and the objective value `result.fun` (named `fval` here,
`fun` being a Lean keyword).  The solver is an external collaborator, so it
enters the embedding as a function producing such a result. -/
structure SolverResult where
  x : List ℚ
  success : Bool
  fval : ℚ
deriving DecidableEq, Repr

/-- `calculate_portfolio_return` (lines 40-42):
`np.sum(mean_returns * weights)`. -/
def calculate_portfolio_return (weights mean_returns : List ℚ) : ℚ :=
  (List.zipWith (· * ·) mean_returns weights).sum

/-- The matrix-vector product `np.dot(cov_matrix, weights)`. -/
def matVec (m : List (List ℚ)) (v : List ℚ) : List ℚ :=
  m.map fun row => (List.zipWith (· * ·) row v).sum

/-- `calculate_portfolio_volatility` (lines 36-38):
`np.sqrt(np.dot(weights.T, np.dot(cov_matrix, weights)))`, over `ℝ` because
of the square root. -/
noncomputable def calculate_portfolio_volatility (weights : List ℚ)
    (cov_matrix : List (List ℚ)) : ℝ :=
  Real.sqrt (((List.zipWith (· * ·) weights (matVec cov_matrix weights)).sum : ℚ) : ℝ)

/-- `calculate_sharpe_ratio` (lines 44-49), the objective the source hands
(negated) to the solver. -/
noncomputable def calculate_sharpe_ratio (weights mean_returns : List ℚ)
    (cov_matrix : List (List ℚ)) (risk_free_rate : ℚ) : ℝ :=
  ((calculate_portfolio_return weights mean_returns - risk_free_rate : ℚ) : ℝ) /
    calculate_portfolio_volatility weights cov_matrix

/-- One row of the `risk_params` table. -/
structure RiskParams where
  stocks : ℚ
  bonds : ℚ
  alternatives : ℚ
deriving DecidableEq, Repr

/-- The `risk_params` table (lines 69-75). -/
def risk_params : List (String × RiskParams) :=
  [("conservative", ⟨30/100, 60/100, 10/100⟩),
   ("moderate_conservative", ⟨50/100, 40/100, 10/100⟩),
   ("moderate", ⟨60/100, 30/100, 10/100⟩),
   ("moderate_aggressive", ⟨70/100, 20/100, 10/100⟩),
   ("aggressive", ⟨80/100, 10/100, 10/100⟩)]

/-- The initial guess of lines 79-86. -/
def initial_weights (params : RiskParams) : List ℚ :=
  [params.stocks * (6/10), params.stocks * (4/10),
   params.bonds * (7/10), params.bonds * (3/10),
   params.alternatives * (5/10), params.alternatives * (5/10)]

/-- The nested dict stored under the `'metrics'` key (lines 101-105). -/
structure OptMetrics where
  sharpe_ratio : ℚ
  expected_return : ℚ
  volatility : ℝ

/-- A value of the heterogeneous dict `optimize_portfolio` returns: either
an asset weight or the nested metrics dict. -/
inductive AllocVal where
  | weight (w : ℚ)
  | metricsVal (m : OptMetrics)

/-- Shallow embedding of `optimize_portfolio` (lines 51-107).  The lookup
`risk_params[risk_level]` raises `KeyError` on an unknown tier, embedded as
`none`.  After the solve, the source builds `dict(zip(symbols, result.x))`
and adds the `'metrics'` entry; it never reads `result.success`, so the
solver's iterate is returned whether or not the solve converged. -/
noncomputable def optimize_portfolio (minimize : List ℚ → SolverResult)
    (mean_returns : List ℚ) (cov_matrix : List (List ℚ)) (risk_level : String) :
    Option (List (String × AllocVal)) :=
  match risk_params.lookup risk_level with
  | none => none
  | some params =>
    let result := minimize (initial_weights params)
    let allocation := asset_symbols.zip (result.x.map AllocVal.weight)
    some (allocation ++
      [("metrics", AllocVal.metricsVal
        { sharpe_ratio := -result.fval
        , expected_return := calculate_portfolio_return result.x mean_returns
        , volatility := calculate_portfolio_volatility result.x cov_matrix })])

/-- The numeric weight entries of the returned dict, in order (the values a
caller reads back as the allocation proper). -/
def allocWeights (allocation : List (String × AllocVal)) : List ℚ :=
  allocation.filterMap fun sv =>
    match sv.2 with
    | AllocVal.weight w => some w
    | AllocVal.metricsVal _ => none

/-- The first line of `get_portfolio_stats` (line 196):
`symbols = list(allocation.keys())` — the symbol universe for which that
function then fetches history and computes statistics. -/
def get_portfolio_stats_symbols (allocation : List (String × AllocVal)) : List String :=
  allocation.map Prod.fst

theorem allocWeights_zip_append (syms : List String) (x : List ℚ) (m : OptMetrics)
    (h : syms.length = x.length) :
    allocWeights (syms.zip (x.map AllocVal.weight) ++
      [("metrics", AllocVal.metricsVal m)]) = x := by
  induction syms generalizing x with
  | nil =>
    cases x with
    | nil => rfl
    | cons a x => exact absurd h (by simp)
  | cons s syms ih =>
    cases x with
    | nil => exact absurd h (by simp)
    | cons a x =>
      have := ih x (by simpa using h)
      simpa [allocWeights, List.filterMap_cons] using this

theorem lookup_metrics_zip_append (syms : List String) (x : List ℚ) (m : OptMetrics)
    (hm : "metrics" ∉ syms) :
    (syms.zip (x.map AllocVal.weight) ++
        [("metrics", AllocVal.metricsVal m)]).lookup "metrics" =
      some (AllocVal.metricsVal m) := by
  induction syms generalizing x with
  | nil => cases x <;> rfl
  | cons s syms ih =>
    cases x with
    | nil => rfl
    | cons a x =>
      have hs : s ≠ "metrics" := fun h => hm (by simp [h])
      have hb : ("metrics" == s) = false := by
        simpa using fun h => hs h.symm
      simpa [List.zip_cons_cons, List.lookup, hb] using
        ih x (fun h => hm (List.mem_cons_of_mem _ h))

theorem optimize_portfolio_eq_some (minimize : List ℚ → SolverResult)
    (mean_returns : List ℚ) (cov_matrix : List (List ℚ)) (risk_level : String)
    (params : RiskParams) (hrisk : risk_params.lookup risk_level = some params) :
    optimize_portfolio minimize mean_returns cov_matrix risk_level =
      some (asset_symbols.zip
          ((minimize (initial_weights params)).x.map AllocVal.weight) ++
        [("metrics", AllocVal.metricsVal
          { sharpe_ratio := -(minimize (initial_weights params)).fval
          , expected_return :=
              calculate_portfolio_return (minimize (initial_weights params)).x mean_returns
          , volatility :=
              calculate_portfolio_volatility (minimize (initial_weights params)).x
                cov_matrix })]) := by
  unfold optimize_portfolio
  rw [hrisk]

/-- C1, counterexample to the claim as stated: a solver run that reports
failure (`success := false`) with final iterate `[0,0,0,0,0,0]` still makes
`optimize_portfolio` return an allocation — one whose weights sum to `0`,
not `1` — instead of signaling `OptimizationDidNotConverge` (no such signal
exists anywhere in the code path). -/
theorem optimize_portfolio_no_failure_signal :
    ((optimize_portfolio (fun _ => ⟨List.replicate 6 0, false, 0⟩)
        (List.replicate 6 0) (List.replicate 6 (List.replicate 6 0)) "moderate").map
      allocWeights) = some (List.replicate 6 0) ∧
    (List.replicate 6 (0 : ℚ)).sum ≠ 1 := by
  constructor
  · rfl
  · norm_num [List.sum_replicate]

/-- C1, amended: `optimize_portfolio` never signals convergence failure —
the source never reads `result.success`, so two solvers agreeing on the
final iterate and objective value but differing arbitrarily in the
convergence flag produce identical output; a failed solve's weight vector
(valid allocation or not) is returned silently. -/
theorem optimize_portfolio_ignores_convergence
    (minimize1 minimize2 : List ℚ → SolverResult)
    (mean_returns : List ℚ) (cov_matrix : List (List ℚ)) (risk_level : String)
    (h : ∀ x0, (minimize1 x0).x = (minimize2 x0).x ∧
      (minimize1 x0).fval = (minimize2 x0).fval) :
    optimize_portfolio minimize1 mean_returns cov_matrix risk_level =
      optimize_portfolio minimize2 mean_returns cov_matrix risk_level := by
  unfold optimize_portfolio
  cases risk_params.lookup risk_level with
  | none => rfl
  | some params =>
    obtain ⟨hx, hf⟩ := h (initial_weights params)
    simp only [hx, hf]

/-- Witness for the C1 amended theorem: two concrete solvers identical but
for the convergence flag yield the same output. -/
theorem optimize_portfolio_ignores_convergence_witness :
    optimize_portfolio (fun _ => ⟨List.replicate 6 (1/6), false, -1⟩) [] [] "aggressive" =
      optimize_portfolio (fun _ => ⟨List.replicate 6 (1/6), true, -1⟩) [] [] "aggressive" :=
  optimize_portfolio_ignores_convergence _ _ _ _ _ (fun _ => ⟨rfl, rfl⟩)

/-- C4, counterexample to the claim as stated: for the supported tier
`"conservative"`, a non-converged solve whose final iterate is
`[2,0,0,0,0,0]` is passed through unchecked, so the returned weight vector
sums to `2` (outside `1 ± 1e-6`) and contains the weight `2 ∉ [0,1]`. -/
theorem optimize_portfolio_invalid_weights_unchecked :
    ((optimize_portfolio (fun _ => ⟨[2, 0, 0, 0, 0, 0], false, 0⟩)
        (List.replicate 6 0) (List.replicate 6 (List.replicate 6 0)) "conservative").map
      allocWeights) = some [2, 0, 0, 0, 0, 0] ∧
    ¬ |([2, 0, 0, 0, 0, 0] : List ℚ).sum - 1| ≤ 1/1000000 ∧ ¬ (2 : ℚ) ≤ 1 := by
  refine ⟨rfl, ?_, by norm_num⟩
  norm_num

/-- C4, amended: whenever the solver's returned iterate actually satisfies
the constraints and bounds the source imposed on it (six weights, summing
to 1, each in `[0,1]` — in particular whenever the SLSQP solve converged),
`optimize_portfolio` on a supported risk tier returns an allocation whose
weights sum to exactly 1 with every weight in `[0,1]`.  The source performs
no check of its own, so the property is inherited from the solver, not
enforced (see the C4 counterexample). -/
theorem optimize_portfolio_weights_valid_of_converged
    (minimize : List ℚ → SolverResult)
    (mean_returns : List ℚ) (cov_matrix : List (List ℚ)) (risk_level : String)
    (params : RiskParams) (hrisk : risk_params.lookup risk_level = some params)
    (hlen : (minimize (initial_weights params)).x.length = 6)
    (hsum : (minimize (initial_weights params)).x.sum = 1)
    (hbd : ∀ w ∈ (minimize (initial_weights params)).x, 0 ≤ w ∧ w ≤ 1) :
    ∃ allocation,
      optimize_portfolio minimize mean_returns cov_matrix risk_level = some allocation ∧
      (allocWeights allocation).sum = 1 ∧
      ∀ w ∈ allocWeights allocation, 0 ≤ w ∧ w ≤ 1 := by
  refine ⟨_, optimize_portfolio_eq_some minimize mean_returns cov_matrix risk_level
    params hrisk, ?_⟩
  rw [allocWeights_zip_append _ _ _ (by rw [hlen]; rfl)]
  exact ⟨hsum, hbd⟩

/-- Witness for the C4 amended theorem: a concrete conforming solver result
`[1,0,0,0,0,0]` on the `"moderate"` tier. -/
theorem optimize_portfolio_weights_valid_witness :
    ∃ allocation,
      optimize_portfolio (fun _ => ⟨[1, 0, 0, 0, 0, 0], true, 0⟩) [] [] "moderate" =
        some allocation ∧
      (allocWeights allocation).sum = 1 ∧
      ∀ w ∈ allocWeights allocation, 0 ≤ w ∧ w ≤ 1 := by
  refine optimize_portfolio_weights_valid_of_converged _ _ _ _ _ rfl rfl (by norm_num) ?_
  intro w hw
  simp only [List.mem_cons, List.not_mem_nil, or_false] at hw
  rcases hw with rfl | rfl | rfl | rfl | rfl | rfl <;> norm_num

/-- C10: for every solver outcome (of the expected six-asset shape) and
supported risk tier, the dict `optimize_portfolio` returns carries, besides
the six asset symbols, the extra `'metrics'` key holding the nested metrics
dict (Sharpe ratio, expected return, volatility) — so the result is not a
pure symbol-to-weight map, and `get_portfolio_stats`, which takes
`list(allocation.keys())` as its symbol universe (as the optimize route
does at portfolio.py lines 44-45), treats `'metrics'` as a seventh asset
symbol. -/
theorem optimize_portfolio_metrics_key (minimize : List ℚ → SolverResult)
    (mean_returns : List ℚ) (cov_matrix : List (List ℚ)) (risk_level : String)
    (params : RiskParams) (hrisk : risk_params.lookup risk_level = some params)
    (hlen : (minimize (initial_weights params)).x.length = 6) :
    ∃ allocation,
      optimize_portfolio minimize mean_returns cov_matrix risk_level = some allocation ∧
      get_portfolio_stats_symbols allocation = asset_symbols ++ ["metrics"] ∧
      ∃ m, allocation.lookup "metrics" = some (AllocVal.metricsVal m) := by
  refine ⟨_, optimize_portfolio_eq_some minimize mean_returns cov_matrix risk_level
    params hrisk, ?_, ?_⟩
  · unfold get_portfolio_stats_symbols
    rw [List.map_append, List.map_fst_zip]
    · rfl
    · rw [List.length_map, hlen]
      rfl
  · exact ⟨_, lookup_metrics_zip_append _ _ _ (by decide)⟩

/-- Witness for the C10 theorem at a concrete solver and the
`"conservative"` tier. -/
theorem optimize_portfolio_metrics_key_witness :
    ∃ allocation,
      optimize_portfolio (fun _ => ⟨[1, 0, 0, 0, 0, 0], true, 0⟩) [] [] "conservative" =
        some allocation ∧
      get_portfolio_stats_symbols allocation = asset_symbols ++ ["metrics"] ∧
      ∃ m, allocation.lookup "metrics" = some (AllocVal.metricsVal m) :=
  optimize_portfolio_metrics_key _ _ _ _ _ rfl rfl

/-! ## FrontierGenerator (`calculate_efficient_frontier`, lines 109-153) -/

/-- One efficient-frontier point, the dict built at lines 145-150. -/
structure FrontierPoint where
  weights : List (String × ℚ)
  expected_return : ℚ
  volatility : ℚ
  sharpe_ratio : ℚ
deriving DecidableEq, Repr

/-- `np.linspace(a, b, n)` with both endpoints included, in exact rational
arithmetic: empty for `n = 0`, `[a]` for `n = 1`, and otherwise
`a + i * (b - a) / (n - 1)` for `i = 0 … n-1`. -/
def linspace (a b : ℚ) (n : ℕ) : List ℚ :=
  if n = 0 then []
  else if n = 1 then [a]
  else (List.range n).map fun i : ℕ => a + (i : ℚ) * (b - a) / ((n : ℚ) - 1)

/-- The equal-weight initial guess `np.array([1/n_assets] * n_assets)` of
line 138. -/
def frontier_x0 : List ℚ :=
  List.replicate asset_symbols.length (1 / (asset_symbols.length : ℚ))

/-- Shallow embedding of `calculate_efficient_frontier` (lines 109-153).
The per-target SLSQP solve is the external collaborator `minimize`, taking
the target return (through the equality constraint of line 132) and the
initial guess; the source reads `result.success`, `result.x` and
`result.fun` (the minimized volatility).  `np.min`/`np.max` raise on an
empty series, embedded as `none`.  Only successful solves append a point
(line 144); failures are skipped. -/
def calculate_efficient_frontier (minimize : ℚ → List ℚ → SolverResult)
    (mean_returns : List ℚ) (n_points : ℕ) : Option (List FrontierPoint) :=
  match mean_returns.min?, mean_returns.max? with
  | some min_return, some max_return =>
    let target_returns := linspace min_return max_return n_points
    some (target_returns.filterMap fun target_return =>
      let result := minimize target_return frontier_x0
      if result.success then
        some { weights := asset_symbols.zip result.x
             , expected_return := target_return
             , volatility := result.fval
             , sharpe_ratio := (target_return - 2/100) / result.fval }
      else none)
  | _, _ => none

theorem le_foldl_max (l : List ℚ) (a b : ℚ) (h : a ≤ b) : a ≤ l.foldl max b := by
  induction l generalizing b with
  | nil => exact h
  | cons c t ih => exact ih _ (le_trans h (le_max_left b c))

theorem mem_le_foldl_max : ∀ (t : List ℚ) (x a : ℚ), x ∈ t → x ≤ t.foldl max a
  | c :: r, x, a, hx => by
    rcases List.mem_cons.1 hx with rfl | h2
    · exact le_foldl_max r x (max a x) (le_max_right a x)
    · exact mem_le_foldl_max r x (max a c) h2

theorem le_max?_of_mem (l : List ℚ) (x b : ℚ) (hx : x ∈ l) (hb : l.max? = some b) :
    x ≤ b := by
  cases l with
  | nil => cases hx
  | cons a t =>
    have hb2 : t.foldl max a = b := by simpa [List.max?] using hb
    subst hb2
    rcases List.mem_cons.1 hx with rfl | hxt
    · exact le_foldl_max t x x le_rfl
    · exact mem_le_foldl_max t x a hxt

theorem min?_le_max? (l : List ℚ) (mn mx : ℚ) (hmn : l.min? = some mn)
    (hmx : l.max? = some mx) : mn ≤ mx :=
  le_max?_of_mem l mn mx (List.min?_mem min_choice hmn) hmx

theorem linspace_length_le (a b : ℚ) (n : ℕ) : (linspace a b n).length ≤ n := by
  unfold linspace
  split_ifs with h0 h1
  · simp
  · simp [h1]
  · rw [List.length_map, List.length_range]

theorem linspace_sorted (a b : ℚ) (n : ℕ) (hab : a ≤ b) :
    List.Sorted (· ≤ ·) (linspace a b n) := by
  unfold linspace
  split_ifs with h0 h1
  · simp
  · simp
  · rw [List.Sorted]
    refine List.pairwise_map.mpr ((List.pairwise_lt_range n).imp ?_)
    intro i j hij
    have hd : (0 : ℚ) ≤ (b - a) / ((n : ℚ) - 1) := by
      apply div_nonneg (by linarith)
      have h2 : 2 ≤ n := by omega
      have : (2 : ℚ) ≤ (n : ℚ) := by exact_mod_cast h2
      linarith
    have hij' : (i : ℚ) ≤ (j : ℚ) := by exact_mod_cast le_of_lt hij
    have := mul_le_mul_of_nonneg_right hij' hd
    calc a + (i : ℚ) * (b - a) / ((n : ℚ) - 1)
        = a + (i : ℚ) * ((b - a) / ((n : ℚ) - 1)) := by ring
      _ ≤ a + (j : ℚ) * ((b - a) / ((n : ℚ) - 1)) := by linarith
      _ = a + (j : ℚ) * (b - a) / ((n : ℚ) - 1) := by ring

theorem filterMap_ite_some_eq_filter (l : List ℚ) (p : ℚ → Bool) :
    (l.filterMap fun t => if p t then some t else none) = l.filter p := by
  induction l with
  | nil => rfl
  | cons a t ih =>
    by_cases h : p a <;> simp [List.filterMap_cons, List.filter_cons, h, ih]

/-- C9: for every solver behavior, nonempty return statistics and requested
point count, `calculate_efficient_frontier` returns at most `n_points`
frontier points; the sequence of their target returns is exactly the
successful sublist of the linear sweep `linspace min max n_points` (so the
points are ordered by ascending target return), and a target whose solve
reports failure contributes no point at all. -/
theorem calculate_efficient_frontier_spec (minimize : ℚ → List ℚ → SolverResult)
    (mean_returns : List ℚ) (n_points : ℕ) (min_return max_return : ℚ)
    (hmn : mean_returns.min? = some min_return)
    (hmx : mean_returns.max? = some max_return) :
    ∃ pts, calculate_efficient_frontier minimize mean_returns n_points = some pts ∧
      pts.length ≤ n_points ∧
      pts.map FrontierPoint.expected_return =
        (linspace min_return max_return n_points).filter
          (fun t => (minimize t frontier_x0).success) ∧
      List.Sorted (· ≤ ·) (pts.map FrontierPoint.expected_return) ∧
      ∀ t ∈ linspace min_return max_return n_points,
        (minimize t frontier_x0).success = false →
          t ∉ pts.map FrontierPoint.expected_return := by
  have hopt : calculate_efficient_frontier minimize mean_returns n_points =
      some ((linspace min_return max_return n_points).filterMap fun target_return =>
        let result := minimize target_return frontier_x0
        if result.success then
          some { weights := asset_symbols.zip result.x
               , expected_return := target_return
               , volatility := result.fval
               , sharpe_ratio := (target_return - 2/100) / result.fval }
        else none) := by
    unfold calculate_efficient_frontier
    rw [hmn, hmx]
  refine ⟨_, hopt, ?_, ?_, ?_, ?_⟩
  all_goals
    have hmap : (((linspace min_return max_return n_points).filterMap
        fun target_return =>
          let result := minimize target_return frontier_x0
          if result.success then
            some { weights := asset_symbols.zip result.x
                 , expected_return := target_return
                 , volatility := result.fval
                 , sharpe_ratio := (target_return - 2/100) / result.fval
                 : FrontierPoint }
          else none).map FrontierPoint.expected_return) =
        (linspace min_return max_return n_points).filter
          (fun t => (minimize t frontier_x0).success) := by
      rw [List.map_filterMap, ← filterMap_ite_some_eq_filter]
      congr 1
      funext t
      by_cases h : (minimize t frontier_x0).success <;> simp [h]
  · calc ((linspace min_return max_return n_points).filterMap _).length
        = (((linspace min_return max_return n_points).filterMap fun target_return =>
            let result := minimize target_return frontier_x0
            if result.success then
              some { weights := asset_symbols.zip result.x
                   , expected_return := target_return
                   , volatility := result.fval
                   , sharpe_ratio := (target_return - 2/100) / result.fval
                   : FrontierPoint }
            else none).map FrontierPoint.expected_return).length := by
          rw [List.length_map]
      _ ≤ n_points := by
          rw [hmap]
          exact le_trans (List.length_filter_le _ _)
            (linspace_length_le min_return max_return n_points)
  · rw [hmap]
  · rw [hmap]
    exact (linspace_sorted min_return max_return n_points
      (min?_le_max? mean_returns min_return max_return hmn hmx)).filter _
  · intro t ht hfail
    rw [hmap]
    intro hmem
    rw [List.mem_filter] at hmem
    rw [hfail] at hmem
    exact Bool.false_ne_true hmem.2

/-- Witness for the C9 theorem: two asset returns `[1/10, 1/5]`, three
requested points, and a concrete always-converging solver. -/
theorem calculate_efficient_frontier_spec_witness :
    ∃ pts, calculate_efficient_frontier
        (fun _ _ => ⟨frontier_x0, true, 1/10⟩) [1/10, 1/5] 3 = some pts ∧
      pts.length ≤ 3 ∧
      pts.map FrontierPoint.expected_return =
        (linspace (1/10) (1/5) 3).filter
          (fun t => ((fun (_ : ℚ) (_ : List ℚ) =>
            (⟨frontier_x0, true, 1/10⟩ : SolverResult)) t frontier_x0).success) ∧
      List.Sorted (· ≤ ·) (pts.map FrontierPoint.expected_return) ∧
      ∀ t ∈ linspace (1/10) (1/5) 3,
        ((fun (_ : ℚ) (_ : List ℚ) =>
          (⟨frontier_x0, true, 1/10⟩ : SolverResult)) t frontier_x0).success = false →
          t ∉ pts.map FrontierPoint.expected_return := by
  refine calculate_efficient_frontier_spec _ [1/10, 1/5] 3 (1/10) (1/5) ?_ ?_
  · norm_num [List.min?, min_def]
  · norm_num [List.max?, max_def]

/-! ## SimulationEngine (`simulate_portfolio`, lines 225-265, and
`backtest_portfolio`, lines 267-301)

Both methods fetch the same price history for the allocation's symbols plus
`"SPY"`, take `pct_change().dropna()`, and compute the same weighted daily
portfolio-return series (the upstream lines 233-240 and 274-281 are
identical); the embedding therefore takes that shared aligned daily-returns
table as the input both replay loops consume. -/

/-- One output point, the dict of lines 259-263 / 295-299. -/
structure SimulationPoint where
  date : String
  portfolioValue : ℚ
  benchmarkValue : ℚ
deriving DecidableEq, Repr

/-- One trading day of the aligned daily-returns table: the formatted date
string, the calendar day-of-month the source tests with `date.day == 1`,
the per-symbol daily returns, and the `"SPY"` benchmark daily return
(`returns.loc[date, "SPY"]`). -/
structure ReturnRow where
  date : String
  day : ℕ
  rets : List (String × ℚ)
  spy : ℚ
deriving DecidableEq, Repr

/-- The weighted daily portfolio return
`(returns[symbols[:-1]] * pd.Series(allocation)).sum(axis=1)` for one day
(lines 240 / 281): the label-aligned product summed over the allocation's
symbols. -/
def portfolio_daily_return (allocation : List (String × ℚ)) (row : ReturnRow) : ℚ :=
  (allocation.map fun sw => sw.2 * ((row.rets.lookup sw.1).getD 0)).sum

/-- `round(value, 2)` (lines 261-262 / 297-298).  Python rounds floats
half-to-even; over exact rationals we use Mathlib's `round` (half-up).  The
theorem proved here compares the two replay loops, which apply the same
rounding function to the same values, so it is insensitive to the
convention. -/
def round2 (x : ℚ) : ℚ := ((round (x * 100) : ℤ) : ℚ) / 100

/-- The replay loop of `simulate_portfolio` (lines 247-263): on the first
calendar day of a month the monthly contribution is added to both running
values, then the day's portfolio and benchmark returns are applied and the
rounded point is appended. -/
def simulate_loop (allocation : List (String × ℚ)) (monthly_contribution : ℚ) :
    ℚ → ℚ → List ReturnRow → List SimulationPoint
  | _, _, [] => []
  | current_value, benchmark_value, row :: rest =>
    let v1 := if row.day = 1 then current_value + monthly_contribution else current_value
    let b1 := if row.day = 1 then benchmark_value + monthly_contribution else benchmark_value
    let v2 := v1 * (1 + portfolio_daily_return allocation row)
    let b2 := b1 * (1 + row.spy)
    ⟨row.date, round2 v2, round2 b2⟩ ::
      simulate_loop allocation monthly_contribution v2 b2 rest

/-- Shallow embedding of `simulate_portfolio` (lines 225-265). -/
def simulate_portfolio (allocation : List (String × ℚ))
    (initial_investment monthly_contribution : ℚ)
    (returns : List ReturnRow) : List SimulationPoint :=
  simulate_loop allocation monthly_contribution initial_investment initial_investment returns

/-- The replay loop of `backtest_portfolio` (lines 288-299): identical to
`simulate_loop` except that no contribution is ever added. -/
def backtest_loop (allocation : List (String × ℚ)) :
    ℚ → ℚ → List ReturnRow → List SimulationPoint
  | _, _, [] => []
  | current_value, benchmark_value, row :: rest =>
    let v2 := current_value * (1 + portfolio_daily_return allocation row)
    let b2 := benchmark_value * (1 + row.spy)
    ⟨row.date, round2 v2, round2 b2⟩ :: backtest_loop allocation v2 b2 rest

/-- Shallow embedding of `backtest_portfolio` (lines 267-301). -/
def backtest_portfolio (allocation : List (String × ℚ)) (initial_investment : ℚ)
    (returns : List ReturnRow) : List SimulationPoint :=
  backtest_loop allocation initial_investment initial_investment returns

theorem simulate_loop_zero_eq_backtest_loop (allocation : List (String × ℚ))
    (v b : ℚ) (rows : List ReturnRow) :
    simulate_loop allocation 0 v b rows = backtest_loop allocation v b rows := by
  induction rows generalizing v b with
  | nil => rfl
  | cons row rest ih =>
    simp only [simulate_loop, backtest_loop, add_zero, ite_self]
    rw [ih]

/-- C8: with `monthly_contribution = 0`, `simulate_portfolio` produces a
point-for-point identical output (same dates, same rounded portfolio
values, same rounded benchmark values) to `backtest_portfolio` on the same
allocation, initial investment and daily-returns table — the two source
loops differ only in the contribution lines, which then add `0`. -/
theorem simulate_portfolio_zero_contribution_eq_backtest
    (allocation : List (String × ℚ)) (initial_investment : ℚ)
    (returns : List ReturnRow) :
    simulate_portfolio allocation initial_investment 0 returns =
      backtest_portfolio allocation initial_investment returns :=
  simulate_loop_zero_eq_backtest_loop allocation initial_investment initial_investment returns

/-! ## ScenarioAnalyzer (`analyze_scenario`, lines 303-325)

The metrics are computed (lines 313-323) from the list
`[p["portfolioValue"] for p in backtest_results]` and the initial
investment; the embedding takes that value series directly.  The spots
where the code takes square roots force this part of the embedding into
`ℝ`. -/

/-- `np.diff(portfolio_values) / portfolio_values[:-1]` (line 314): the
per-step percentage changes of the value series. -/
noncomputable def np_diff_returns (values : List ℝ) : List ℝ :=
  (values.zip values.tail).map fun p => (p.2 - p.1) / p.1

/-- `np.mean` (of a possibly empty list; numpy warns and returns NaN on
empty input, the embedding's real division then yields the junk value 0). -/
noncomputable def np_mean (l : List ℝ) : ℝ := l.sum / l.length

/-- `np.std`: numpy's default population standard deviation (`ddof = 0`). -/
noncomputable def np_std (l : List ℝ) : ℝ :=
  Real.sqrt ((l.map fun r => (r - np_mean l) ^ 2).sum / l.length)

/-- `np.maximum.accumulate` continued from a running maximum `m`. -/
noncomputable def running_max_from (m : ℝ) : List ℝ → List ℝ
  | [] => []
  | v :: rest => max m v :: running_max_from (max m v) rest

/-- `np.maximum.accumulate(portfolio_values)` (line 321). -/
noncomputable def running_max : List ℝ → List ℝ
  | [] => []
  | v :: rest => v :: running_max_from v rest

/-- The metrics dict built at lines 316-323 (the `backtest_results` echo is
omitted; `max_drawdown` is, as in the source, a whole series, not a
scalar).  `portfolio_values[-1]` raises on an empty list in Python; the
embedding reads `getLast?.getD 0`, which no theorem below relies on. -/
structure ScenarioMetrics where
  total_return : ℝ
  annualized_return : ℝ
  volatility : ℝ
  sharpe_ratio : ℝ
  max_drawdown : List ℝ

/-- Shallow embedding of the metric computation of `analyze_scenario`
(lines 313-323).  Note the numerator of `sharpe_ratio`: the source divides
the *linear* annualization `returns.mean() * 252` by the annualized
volatility, while the `annualized_return` field uses the compounded
`(1 + returns.mean()) ** 252 - 1`; and nothing guards the division when
`returns.std()` is zero. -/
noncomputable def analyze_scenario_metrics (portfolio_values : List ℝ)
    (initial_investment : ℝ) : ScenarioMetrics :=
  let returns := np_diff_returns portfolio_values
  { total_return := ((portfolio_values.getLast?.getD 0) - initial_investment) /
      initial_investment
  , annualized_return := (1 + np_mean returns) ^ (252 : ℕ) - 1
  , volatility := np_std returns * Real.sqrt 252
  , sharpe_ratio := (np_mean returns * 252) / (np_std returns * Real.sqrt 252)
  , max_drawdown := List.zipWith (fun m v => (m - v) / m)
      (running_max portfolio_values) portfolio_values }

theorem sharpe_eq_ratio_iff (portfolio_values : List ℝ) (initial_investment : ℝ)
    (h : np_std (np_diff_returns portfolio_values) ≠ 0) :
    ((analyze_scenario_metrics portfolio_values initial_investment).sharpe_ratio =
        (analyze_scenario_metrics portfolio_values initial_investment).annualized_return /
          (analyze_scenario_metrics portfolio_values initial_investment).volatility ↔
      np_mean (np_diff_returns portfolio_values) * 252 =
        (1 + np_mean (np_diff_returns portfolio_values)) ^ (252 : ℕ) - 1) := by
  have hvol : np_std (np_diff_returns portfolio_values) * Real.sqrt 252 ≠ 0 :=
    mul_ne_zero h (by positivity)
  simp only [analyze_scenario_metrics]
  rw [div_eq_div_iff hvol hvol, mul_left_inj' hvol]

/-- C6, amended: in the metrics of `analyze_scenario`, the Sharpe field is
`(mean_daily_return * 252) / volatility` — a *linear* annualization — while
the annualized-return field is the compounded `(1+mean)^252 - 1`; with
nonzero volatility the Sharpe field equals annualized_return / volatility
exactly when the two annualizations happen to coincide (`mean*252 =
(1+mean)^252 - 1`), which fails for a generic series. -/
theorem analyze_scenario_sharpe_linear_annualization (portfolio_values : List ℝ)
    (initial_investment : ℝ)
    (h : np_std (np_diff_returns portfolio_values) ≠ 0) :
    ((analyze_scenario_metrics portfolio_values initial_investment).sharpe_ratio =
        (analyze_scenario_metrics portfolio_values initial_investment).annualized_return /
          (analyze_scenario_metrics portfolio_values initial_investment).volatility ↔
      np_mean (np_diff_returns portfolio_values) * 252 =
        (1 + np_mean (np_diff_returns portfolio_values)) ^ (252 : ℕ) - 1) :=
  sharpe_eq_ratio_iff portfolio_values initial_investment h

theorem np_diff_returns_example :
    np_diff_returns [(100 : ℝ), 200, 300] = [1, 1/2] := by
  simp only [np_diff_returns, List.tail_cons, List.zip_cons_cons, List.zip_nil_right,
    List.map_cons, List.map_nil]
  norm_num

theorem np_mean_example : np_mean [(1 : ℝ), 1/2] = 3/4 := by
  simp only [np_mean, List.sum_cons, List.sum_nil, List.length_cons, List.length_nil]
  norm_num

theorem np_std_example : np_std [(1 : ℝ), 1/2] = 1/4 := by
  have h16 : ((([(1 : ℝ), 1/2]).map fun r => (r - np_mean [(1 : ℝ), 1/2]) ^ 2).sum /
      (([(1 : ℝ), 1/2]).length : ℝ)) = 1/16 := by
    rw [np_mean_example]
    simp only [List.map_cons, List.map_nil, List.sum_cons, List.sum_nil,
      List.length_cons, List.length_nil]
    norm_num
  rw [np_std, h16, show (1/16 : ℝ) = (1/4) ^ 2 by norm_num,
    Real.sqrt_sq (by norm_num : (0 : ℝ) ≤ 1/4)]

/-- C6, counterexample to the claim as stated: on the backtest value series
`[100, 200, 300]` the per-step returns are `[1, 1/2]` (mean `3/4`, standard
deviation `1/4`, so the volatility is nonzero and there are three points),
yet the Sharpe field `(3/4 · 252) / ((1/4)·√252)` differs from
annualized_return / volatility `= ((7/4)^252 - 1) / ((1/4)·√252)`, because
`189 ≠ (7/4)^252 - 1`. -/
theorem analyze_scenario_sharpe_mismatch :
    (analyze_scenario_metrics [(100 : ℝ), 200, 300] 100).sharpe_ratio ≠
      (analyze_scenario_metrics [(100 : ℝ), 200, 300] 100).annualized_return /
        (analyze_scenario_metrics [(100 : ℝ), 200, 300] 100).volatility := by
  have hstd : np_std (np_diff_returns [(100 : ℝ), 200, 300]) = 1/4 := by
    rw [np_diff_returns_example, np_std_example]
  have hne : np_std (np_diff_returns [(100 : ℝ), 200, 300]) ≠ 0 := by
    rw [hstd]; norm_num
  intro hcontra
  rw [sharpe_eq_ratio_iff _ 100 hne, np_diff_returns_example, np_mean_example] at hcontra
  have hpow : (1 + (3/4 : ℝ)) ^ (16 : ℕ) ≤ (1 + (3/4 : ℝ)) ^ (252 : ℕ) := by
    apply pow_le_pow_right₀ (by norm_num)
    norm_num
  have h16 : (190 : ℝ) < (1 + (3/4 : ℝ)) ^ (16 : ℕ) := by norm_num
  linarith

/-- C3, amended: `analyze_scenario` has no zero-volatility guard and never
signals `UndefinedSharpeRatio` (no such signal exists in the code): on any
value series whose per-step returns have zero standard deviation it still
returns a metrics record whose volatility field is `0` and whose Sharpe
field is the unguarded quotient `(mean·252)/0` — IEEE `inf`/`NaN` at
runtime under numpy, the junk value `0` of real division in this exact
embedding. -/
theorem analyze_scenario_zero_vol_unguarded (portfolio_values : List ℝ)
    (initial_investment : ℝ)
    (h : np_std (np_diff_returns portfolio_values) = 0) :
    (analyze_scenario_metrics portfolio_values initial_investment).volatility = 0 ∧
      (analyze_scenario_metrics portfolio_values initial_investment).sharpe_ratio = 0 := by
  simp only [analyze_scenario_metrics]
  rw [h]
  constructor
  · exact zero_mul _
  · rw [zero_mul, div_zero]

theorem np_std_zero_example : np_std (np_diff_returns [(100 : ℝ), 100, 100]) = 0 := by
  have hr : np_diff_returns [(100 : ℝ), 100, 100] = [0, 0] := by
    simp only [np_diff_returns, List.tail_cons, List.zip_cons_cons, List.zip_nil_right,
      List.map_cons, List.map_nil]
    norm_num
  have hm : np_mean [(0 : ℝ), 0] = 0 := by
    simp [np_mean]
  rw [hr, np_std, hm]
  simp

/-- C3, counterexample to the claim as stated: the constant backtest value
series `[100, 100, 100]` has per-step returns of zero standard deviation,
and `analyze_scenario` still produces a metrics record — no
`UndefinedSharpeRatio` is signaled — whose Sharpe field is the unguarded
zero-denominator quotient (NaN at runtime; the real-division junk value `0`
here), i.e. the Sharpe ratio *is* silently coerced rather than reported. -/
theorem analyze_scenario_zero_vol_cex :
    np_std (np_diff_returns [(100 : ℝ), 100, 100]) = 0 ∧
      (analyze_scenario_metrics [(100 : ℝ), 100, 100] 100).volatility = 0 ∧
      (analyze_scenario_metrics [(100 : ℝ), 100, 100] 100).sharpe_ratio = 0 := by
  refine ⟨np_std_zero_example, ?_, ?_⟩
  · simp only [analyze_scenario_metrics]
    rw [np_std_zero_example, zero_mul]
  · simp only [analyze_scenario_metrics]
    rw [np_std_zero_example, zero_mul, div_zero]

/-- Witness for the C3 amended theorem at the constant series
`[100, 100, 100]`. -/
theorem analyze_scenario_zero_vol_unguarded_witness :
    np_std (np_diff_returns [(100 : ℝ), 100, 100]) = 0 ∧
      ((analyze_scenario_metrics [(100 : ℝ), 100, 100] 200).volatility = 0 ∧
        (analyze_scenario_metrics [(100 : ℝ), 100, 100] 200).sharpe_ratio = 0) :=
  ⟨np_std_zero_example,
    analyze_scenario_zero_vol_unguarded [(100 : ℝ), 100, 100] 200 np_std_zero_example⟩

/-- Witness for the C6 amended theorem at the series `[100, 200, 300]`,
whose returns have nonzero standard deviation `1/4`. -/
theorem analyze_scenario_sharpe_linear_annualization_witness :
    np_std (np_diff_returns [(100 : ℝ), 200, 300]) ≠ 0 ∧
      ((analyze_scenario_metrics [(100 : ℝ), 200, 300] 100).sharpe_ratio =
          (analyze_scenario_metrics [(100 : ℝ), 200, 300] 100).annualized_return /
            (analyze_scenario_metrics [(100 : ℝ), 200, 300] 100).volatility ↔
        np_mean (np_diff_returns [(100 : ℝ), 200, 300]) * 252 =
          (1 + np_mean (np_diff_returns [(100 : ℝ), 200, 300])) ^ (252 : ℕ) - 1) := by
  have hne : np_std (np_diff_returns [(100 : ℝ), 200, 300]) ≠ 0 := by
    rw [np_diff_returns_example, np_std_example]; norm_num
  exact ⟨hne, analyze_scenario_sharpe_linear_annualization [(100 : ℝ), 200, 300] 100 hne⟩

end RoboAdvisor
